import Mathlib

/-!
Verification of the vector similarity retrieval and batch embedding
subsystem of the slack_emoji_wachawacha repository.

The Python sources are shallowly embedded as executable Lean
definitions:

* `find_similar_emojis` embeds `DatabaseService.find_similar_emojis`
  (app/services/database_service.py): the SQL query's WHERE clause,
  the score CASE expression, ORDER BY similarity_score DESC and LIMIT.
* `vectorize_all_emojis` and `vectorize_emojis_batch` embed the
  corresponding methods of `EmojiService` (app/services/emoji_service.py),
  instrumented with an explicit effect trace.
* `breakerCallAsync` embeds the wrapper of `create_circuit_breaker`
  (app/utils/error_handler.py) as it behaves on the async functions it
  decorates in this program.
* `retryEmbedding` embeds the retry loop of
  `OpenAIService._get_embedding_with_circuit_breaker`
  (app/services/openai_service.py).
* `get_embeddings_batch` embeds `OpenAIService.get_embeddings_batch`.
* The `EmojiService` code-keyed catalog cache is embedded as a
  function-valued dictionary together with `update_emoji`,
  `delete_emoji` and `get_emoji_by_code`.

Python floats that only flow through comparisons and exact arithmetic
are modelled as rationals; the SQL double value that can be NULL or NaN
is modelled by the dedicated type `SqlFloat`.
-/

/-- A SQL double-precision value as seen by the similarity CASE
expression of `find_similar_emojis`: NULL, NaN, or an ordinary numeric
value (modelled as a rational). -/
inductive SqlFloat where
  | null : SqlFloat
  | nan : SqlFloat
  | val : ℚ → SqlFloat
deriving DecidableEq

/-- One row of the `emojis` table / one `EmojiData` object
(app/models/emoji.py). Only the fields the verified subsystem reads are
carried. `embedding` is NULL-able, hence an `Option`. -/
structure EmojiRow where
  id : Nat
  code : String
  description : String
  category : Option String
  emotion_tone : Option String
  usage_scene : Option String
  priority : Nat
  embedding : Option (List ℚ)
deriving DecidableEq

/-- An `EmojiData` returned by the similarity search, with the
dynamically attached `similarity_score` attribute
(database_service.py line 622). -/
structure Candidate where
  row : EmojiRow
  similarity_score : ℚ
deriving DecidableEq

/-- The CASE expression of the search SQL (database_service.py lines
576-580): NULL distance and NaN distance map to 0.0, any other distance
d maps to GREATEST(0.0, LEAST(1.0, 1 - d)). -/
def similarityScore : SqlFloat → ℚ
  | SqlFloat.null => 0
  | SqlFloat.nan => 0
  | SqlFloat.val d => max 0 (min 1 (1 - d))

/-- The filter keys recognised by `find_similar_emojis`
(database_service.py line 602); any other key in the filters dict is
ignored. -/
def allowedFilterKeys : List String := ["emotion_tone", "category", "usage_scene"]

/-- The column a recognised filter key compares against. -/
def fieldOf (r : EmojiRow) (key : String) : Option String :=
  if key = "emotion_tone" then r.emotion_tone
  else if key = "category" then r.category
  else if key = "usage_scene" then r.usage_scene
  else none

/-- The filter entries that actually contribute a `key = %s` condition
to the SQL query. -/
def activeFilters (filters : List (String × String)) : List (String × String) :=
  filters.filter (fun kv => allowedFilterKeys.contains kv.1)

/-- A row satisfies every active `key = value` condition. A NULL column
never equals a string value, exactly as in SQL. -/
def rowMatches (r : EmojiRow) (filters : List (String × String)) : Bool :=
  (activeFilters filters).all (fun kv => decide (fieldOf r kv.1 = some kv.2))

/-- The error raised by `find_similar_emojis` before any connection is
opened when the query vector has the wrong number of components
(database_service.py lines 564-567). -/
inductive DbError where
  | invalidDimension : Nat → DbError
deriving DecidableEq

instance {ε : Type _} {α : Type _} [DecidableEq ε] [DecidableEq α] :
    DecidableEq (Except ε α) := fun a b =>
  match a, b with
  | Except.ok x, Except.ok y =>
      if h : x = y then isTrue (by rw [h])
      else isFalse (fun hc => h (by injection hc))
  | Except.error x, Except.error y =>
      if h : x = y then isTrue (by rw [h])
      else isFalse (fun hc => h (by injection hc))
  | Except.ok _, Except.error _ => isFalse (fun hc => Except.noConfusion hc)
  | Except.error _, Except.ok _ => isFalse (fun hc => Except.noConfusion hc)

/-- Result ordering used by ORDER BY similarity_score DESC: a comes
before b when its score is at least b's score. -/
def scoreGe (a b : Candidate) : Prop := b.similarity_score ≤ a.similarity_score

instance : DecidableRel scoreGe := fun a b =>
  inferInstanceAs (Decidable (b.similarity_score ≤ a.similarity_score))

instance : IsTrans Candidate scoreGe :=
  ⟨fun _ _ _ hab hbc => le_trans hbc hab⟩

instance : IsTotal Candidate scoreGe :=
  ⟨fun a b => (le_total b.similarity_score a.similarity_score).elim Or.inl Or.inr⟩

/-- The rows the WHERE clause keeps: `embedding IS NOT NULL` AND every
active filter condition. -/
def eligibleRows (table : List EmojiRow)
    (filters : List (String × String)) : List EmojiRow :=
  table.filter (fun r => r.embedding.isSome && rowMatches r filters)

/-- Each surviving row with its CASE-clamped similarity_score; `dist`
is the pgvector `<=>` operator applied to the stored embedding and the
query vector. -/
def scoredRows (table : List EmojiRow)
    (dist : List ℚ → List ℚ → SqlFloat)
    (query_vector : List ℚ)
    (filters : List (String × String)) : List Candidate :=
  (eligibleRows table filters).map (fun r =>
    ⟨r, similarityScore
        (match r.embedding with
         | some e => dist e query_vector
         | none => SqlFloat.null)⟩)

/-- `DatabaseService.find_similar_emojis` (database_service.py lines
544-632). `table` is the `emojis` relation; `dist` models the pgvector
cosine-distance operator `embedding <=> query_vector`, whose numeric
value is computed by the database engine and is opaque to the Python
code, so it is a parameter here. The dimension of the query vector is
checked before any connection is opened; then the SQL restricts to rows
whose embedding is not NULL and which satisfy every active filter
condition, attaches the CASE-clamped score, orders by score descending
and truncates to `limit`. SQL leaves the relative order of equal scores
unspecified; insertion sort realises one admissible order. -/
def find_similar_emojis (table : List EmojiRow)
    (dist : List ℚ → List ℚ → SqlFloat)
    (query_vector : List ℚ) (limit : Nat)
    (filters : List (String × String)) :
    Except DbError (List Candidate) :=
  if query_vector.length ≠ 1536 then
    Except.error (DbError.invalidDimension query_vector.length)
  else
    Except.ok ((List.insertionSort scoreGe
      (scoredRows table dist query_vector filters)).take limit)

/-- Helper: a successful search result is exactly the sorted, truncated
scored-row list. -/
theorem find_ok_eq
    (table : List EmojiRow) (dist : List ℚ → List ℚ → SqlFloat)
    (qv : List ℚ) (limit : Nat) (filters : List (String × String))
    (res : List Candidate)
    (h : find_similar_emojis table dist qv limit filters = Except.ok res) :
    res = (List.insertionSort scoreGe (scoredRows table dist qv filters)).take limit := by
  unfold find_similar_emojis at h
  by_cases hdim : qv.length = 1536
  · rw [if_neg (fun hne => hne hdim)] at h
    injection h with h
    exact h.symm
  · rw [if_pos hdim] at h
    exact Except.noConfusion h

/-- Helper: every candidate in a successful result arises from an
eligible row mapped through the score expression. -/
theorem mem_result_mem_scored
    (table : List EmojiRow) (dist : List ℚ → List ℚ → SqlFloat)
    (qv : List ℚ) (limit : Nat) (filters : List (String × String))
    (res : List Candidate) (c : Candidate)
    (h : find_similar_emojis table dist qv limit filters = Except.ok res)
    (hc : c ∈ res) : c ∈ scoredRows table dist qv filters := by
  rw [find_ok_eq table dist qv limit filters res h] at hc
  exact (List.perm_insertionSort scoreGe _).subset (List.take_subset _ _ hc)

/-- Helper: the CASE-clamped score always lies in [0, 1]. -/
theorem similarityScore_bounds (s : SqlFloat) :
    0 ≤ similarityScore s ∧ similarityScore s ≤ 1 := by
  cases s with
  | null => exact ⟨le_refl 0, by norm_num [similarityScore]⟩
  | nan => exact ⟨le_refl 0, by norm_num [similarityScore]⟩
  | val d =>
      refine ⟨le_max_left 0 _, ?_⟩
      exact max_le (by norm_num) (min_le_left 1 _)

/-- C1: every row returned by the similarity search has a non-null
stored embedding and matches all active filters, adjacent results have
non-increasing similarity_score, and at most `limit` results are
returned. -/
theorem c1_find_similar_filtered_sorted_limited
    (table : List EmojiRow) (dist : List ℚ → List ℚ → SqlFloat)
    (qv : List ℚ) (limit : Nat) (filters : List (String × String))
    (res : List Candidate)
    (h : find_similar_emojis table dist qv limit filters = Except.ok res) :
    (∀ c ∈ res, c.row.embedding.isSome ∧ rowMatches c.row filters) ∧
    (∀ i, ∀ hi : i + 1 < res.length,
      (res.get ⟨i + 1, hi⟩).similarity_score ≤
        (res.get ⟨i, Nat.lt_of_succ_lt hi⟩).similarity_score) ∧
    res.length ≤ limit := by
  refine ⟨?_, ?_, ?_⟩
  · intro c hc
    have hc3 : c ∈ scoredRows table dist qv filters :=
      mem_result_mem_scored table dist qv limit filters res c h hc
    rcases List.mem_map.mp hc3 with ⟨r, hr, hrc⟩
    have hfil := (List.mem_filter.mp hr).2
    rw [Bool.and_eq_true] at hfil
    cases hrc
    exact ⟨hfil.1, hfil.2⟩
  · rw [find_ok_eq table dist qv limit filters res h]
    intro i hi
    have hsorted : List.Sorted scoreGe
        (List.insertionSort scoreGe (scoredRows table dist qv filters)) :=
      List.sorted_insertionSort scoreGe _
    have hsorted2 := List.Pairwise.sublist
      (List.take_sublist limit _) hsorted
    have hpair := List.pairwise_iff_getElem.mp hsorted2
    have hij := hpair i (i + 1) (Nat.lt_of_succ_lt hi) hi (Nat.lt_succ_self i)
    simpa [scoreGe, List.get_eq_getElem] using hij
  · rw [find_ok_eq table dist qv limit filters res h, List.length_take]
    exact min_le_left _ _

set_option maxRecDepth 8000 in
/-- Witness for C1: the concrete one-row catalog search from the spec
scenario, evaluated to its concrete result. -/
theorem c1_witness :
    (∀ c ∈ [(⟨⟨1, ":smile:", "smiling face", none, none, none, 1,
          some (List.replicate 1536 (0 : ℚ))⟩, (1 : ℚ)⟩ : Candidate)],
        c.row.embedding.isSome ∧ rowMatches c.row []) ∧
    (∀ i, ∀ hi : i + 1 < List.length
        [(⟨⟨1, ":smile:", "smiling face", none, none, none, 1,
          some (List.replicate 1536 (0 : ℚ))⟩, (1 : ℚ)⟩ : Candidate)],
      (List.get [(⟨⟨1, ":smile:", "smiling face", none, none, none, 1,
          some (List.replicate 1536 (0 : ℚ))⟩, (1 : ℚ)⟩ : Candidate)]
            ⟨i + 1, hi⟩).similarity_score ≤
        (List.get [(⟨⟨1, ":smile:", "smiling face", none, none, none, 1,
          some (List.replicate 1536 (0 : ℚ))⟩, (1 : ℚ)⟩ : Candidate)]
            ⟨i, Nat.lt_of_succ_lt hi⟩).similarity_score) ∧
    List.length [(⟨⟨1, ":smile:", "smiling face", none, none, none, 1,
          some (List.replicate 1536 (0 : ℚ))⟩, (1 : ℚ)⟩ : Candidate)] ≤ 3 :=
  c1_find_similar_filtered_sorted_limited
    [⟨1, ":smile:", "smiling face", none, none, none, 1,
      some (List.replicate 1536 (0 : ℚ))⟩]
    (fun _ _ => SqlFloat.val 0) (List.replicate 1536 (0 : ℚ)) 3 [] _ (by
      simp [find_similar_emojis, scoredRows, eligibleRows, rowMatches,
        activeFilters, similarityScore, List.insertionSort, List.orderedInsert])

/-- A concrete catalog row used by witnesses. -/
def exampleRow : EmojiRow :=
  ⟨1, ":wave:", "waving hand", none, none, none, 1,
    some (List.replicate 1536 (0 : ℚ))⟩

/-- A concrete 1536-dimensional query vector used by witnesses. -/
def exampleQ : List ℚ := List.replicate 1536 0

/-- C2: every candidate attached to a successful similarity search has
a similarity_score in [0.0, 1.0]; the attached score is exactly the
CASE-clamped value of the row's cosine distance, and a NULL distance, a
NaN distance, or a distance greater than 1 all clamp to exactly 0.0
rather than propagating. -/
theorem c2_score_bounded_and_clamped
    (table : List EmojiRow) (dist : List ℚ → List ℚ → SqlFloat)
    (qv : List ℚ) (limit : Nat) (filters : List (String × String))
    (res : List Candidate)
    (h : find_similar_emojis table dist qv limit filters = Except.ok res) :
    (∀ c ∈ res, 0 ≤ c.similarity_score ∧ c.similarity_score ≤ 1) ∧
    (∀ c ∈ res, ∃ e, c.row.embedding = some e ∧
        c.similarity_score = similarityScore (dist e qv)) ∧
    similarityScore SqlFloat.null = 0 ∧
    similarityScore SqlFloat.nan = 0 ∧
    (∀ d : ℚ, 1 < d → similarityScore (SqlFloat.val d) = 0) := by
  refine ⟨?_, ?_, rfl, rfl, ?_⟩
  · intro c hc
    have hc3 : c ∈ scoredRows table dist qv filters :=
      mem_result_mem_scored table dist qv limit filters res c h hc
    rcases List.mem_map.mp hc3 with ⟨r, _, hrc⟩
    cases hrc
    exact similarityScore_bounds _
  · intro c hc
    have hc3 : c ∈ scoredRows table dist qv filters :=
      mem_result_mem_scored table dist qv limit filters res c h hc
    rcases List.mem_map.mp hc3 with ⟨r, hr, hrc⟩
    have hfil := (List.mem_filter.mp hr).2
    rw [Bool.and_eq_true] at hfil
    rcases Option.isSome_iff_exists.mp hfil.1 with ⟨e, he⟩
    cases hrc
    exact ⟨e, he, by simp [he]⟩
  · intro d hd
    have h1 : (1 : ℚ) - d ≤ 0 := by linarith
    have h2 : (1 : ℚ) - d ≤ 1 := by linarith
    show max 0 (min 1 (1 - d)) = 0
    rw [min_eq_right h2, max_eq_left h1]

set_option maxRecDepth 8000 in
/-- Witness for C2: a one-row catalog whose distance computation yields
NaN produces the score 0. -/
theorem c2_witness :
    (∀ c ∈ [(⟨exampleRow, 0⟩ : Candidate)],
        0 ≤ c.similarity_score ∧ c.similarity_score ≤ 1) ∧
    (∀ c ∈ [(⟨exampleRow, 0⟩ : Candidate)], ∃ e, c.row.embedding = some e ∧
        c.similarity_score = similarityScore ((fun _ _ => SqlFloat.nan) e exampleQ)) ∧
    similarityScore SqlFloat.null = 0 ∧
    similarityScore SqlFloat.nan = 0 ∧
    (∀ d : ℚ, 1 < d → similarityScore (SqlFloat.val d) = 0) :=
  c2_score_bounded_and_clamped [exampleRow] (fun _ _ => SqlFloat.nan)
    exampleQ 3 [] [⟨exampleRow, 0⟩] (by
      simp [find_similar_emojis, scoredRows, eligibleRows, rowMatches,
        activeFilters, similarityScore, exampleRow, exampleQ,
        List.insertionSort, List.orderedInsert])

/-- C3: for every query vector whose length differs from 1536 the
similarity search returns the dimension-mismatch error, uniformly in
the table — the check precedes any store access — and for every vector
of length 1536 the search succeeds, so no such error is raised. -/
theorem c3_dimension_check
    (dist : List ℚ → List ℚ → SqlFloat) (qv : List ℚ)
    (limit : Nat) (filters : List (String × String)) :
    (qv.length ≠ 1536 → ∀ table,
        find_similar_emojis table dist qv limit filters =
          Except.error (DbError.invalidDimension qv.length)) ∧
    (qv.length = 1536 → ∀ table, ∃ res,
        find_similar_emojis table dist qv limit filters = Except.ok res) := by
  constructor
  · intro hne table
    unfold find_similar_emojis
    rw [if_pos hne]
  · intro heq table
    exact ⟨(List.insertionSort scoreGe (scoredRows table dist qv filters)).take limit, by
      unfold find_similar_emojis
      rw [if_neg (fun hne => hne heq)]⟩

set_option maxRecDepth 8000 in
/-- Witness for C3: a length-1 vector is rejected with the dimension
error; the 1536-dimensional example vector is accepted. -/
theorem c3_witness :
    (find_similar_emojis [] (fun _ _ => SqlFloat.null) [0] 3 [] =
      Except.error (DbError.invalidDimension 1)) ∧
    (∃ res, find_similar_emojis [] (fun _ _ => SqlFloat.null) exampleQ 3 [] =
      Except.ok res) :=
  ⟨(c3_dimension_check (fun _ _ => SqlFloat.null) [0] 3 []).1 (by decide) [],
    (c3_dimension_check (fun _ _ => SqlFloat.null) exampleQ 3 []).2
      (by simp [exampleQ]) []⟩

/-- An observable side effect of EmojiService batch vectorization: the
store read of the full catalog (`get_all_emojis`), one
embedding-provider call (`get_embedding`), or one store write of the
accumulated embedding updates (`batch_update_embeddings`). -/
inductive Effect where
  | storeGetAll : Effect
  | providerEmbed : String → Effect
  | storeBatchUpdate : List (Nat × List ℚ) → Effect
deriving DecidableEq

/-- The report dictionary returned by `vectorize_all_emojis`: the
dry-run short-circuit report (would_process, skipped, filtered_out) or
the final statistics (processed, skipped, filtered_out, total)
(emoji_service.py lines 672-678 and 701-706). -/
inductive VectorizeResult where
  | dryRun : Nat → Nat → Nat → VectorizeResult
  | done : Nat → Nat → Nat → Nat → VectorizeResult
deriving DecidableEq

/-- Python truthiness of the optional `category` / `emotion_tone`
arguments: `if category ...` is false for None and for the empty
string. -/
def isTruthy : Option String → Bool
  | none => false
  | some s => decide (s ≠ "")

/-- The first continue of the filtering loop (emoji_service.py line
653): `skip_existing` is set and the row already has an embedding. -/
def skippedByExisting (skip_existing : Bool) (r : EmojiRow) : Bool :=
  skip_existing && r.embedding.isSome

/-- The category condition of the filtering loop
(emoji_service.py line 657). -/
def failsCategory (category : Option String) (r : EmojiRow) : Bool :=
  isTruthy category && decide (r.category ≠ category)

/-- The emotion tone condition of the filtering loop
(emoji_service.py line 662). -/
def failsTone (emotion_tone : Option String) (r : EmojiRow) : Bool :=
  isTruthy emotion_tone && decide (r.emotion_tone ≠ emotion_tone)

/-- A row removed by the category / tone filters: it passed the
skip_existing continue and then hit one of the two `filtered_out += 1`
continues. -/
def removedByFilters (skip_existing : Bool) (category emotion_tone : Option String)
    (r : EmojiRow) : Bool :=
  !skippedByExisting skip_existing r &&
    (failsCategory category r || failsTone emotion_tone r)

/-- A row that reaches `filtered_emojis.append(emoji)`. -/
def survivesFilters (skip_existing : Bool) (category emotion_tone : Option String)
    (r : EmojiRow) : Bool :=
  !skippedByExisting skip_existing r &&
    !(failsCategory category r || failsTone emotion_tone r)

/-- The filtering loop of `vectorize_all_emojis` (emoji_service.py
lines 648-666): one pass over the catalog accumulating the surviving
rows and the `filtered_out` counter. -/
def filterPass (skip_existing : Bool) (category emotion_tone : Option String) :
    List EmojiRow → List EmojiRow × Nat
  | [] => ([], 0)
  | r :: rest =>
      let acc := filterPass skip_existing category emotion_tone rest
      if skippedByExisting skip_existing r then acc
      else if failsCategory category r then (acc.1, acc.2 + 1)
      else if failsTone emotion_tone r then (acc.1, acc.2 + 1)
      else (r :: acc.1, acc.2)

/-- The processing loop of `vectorize_all_emojis` (emoji_service.py
lines 681-695): per surviving row one provider call; on success the
update is accumulated and `processed` incremented, on failure the row
is logged and skipped. The progress callback has no observable effect
on the returned report and is not modelled. Returns
(processed, embedding_updates, provider-call trace). -/
def processPass (embed : String → Option (List ℚ)) :
    List EmojiRow → Nat × List (Nat × List ℚ) × List Effect
  | [] => (0, [], [])
  | r :: rest =>
      let acc := processPass embed rest
      match embed r.description with
      | some v => (acc.1 + 1, (r.id, v) :: acc.2.1,
          Effect.providerEmbed r.description :: acc.2.2)
      | none => (acc.1, acc.2.1,
          Effect.providerEmbed r.description :: acc.2.2)

/-- `EmojiService.vectorize_all_emojis` (emoji_service.py lines
620-706). `embed` models `openai_service.get_embedding` on a row's
description (None = the call raised). Returns the report together with
the trace of provider and store effects in order: the unconditional
`get_all_emojis` read, then (unless dry_run) the per-row provider
calls and the final conditional `batch_update_embeddings` write. -/
def vectorize_all_emojis (catalog : List EmojiRow)
    (embed : String → Option (List ℚ))
    (skip_existing : Bool) (category emotion_tone : Option String)
    (dry_run : Bool) : VectorizeResult × List Effect :=
  let fp := filterPass skip_existing category emotion_tone catalog
  let filtered_out := fp.2
  let total := fp.1.length
  let skipped := catalog.length - fp.1.length - filtered_out
  if dry_run then
    (VectorizeResult.dryRun total skipped filtered_out, [Effect.storeGetAll])
  else
    let pp := processPass embed fp.1
    (VectorizeResult.done pp.1 skipped filtered_out catalog.length,
      Effect.storeGetAll :: pp.2.2 ++
        (if pp.2.1.isEmpty then [] else [Effect.storeBatchUpdate pp.2.1]))

/-- Helper: the filtering loop computes the filter of the surviving
rows and counts the rows removed by the category / tone filters. -/
theorem filterPass_eq (se : Bool) (cat tone : Option String)
    (l : List EmojiRow) :
    filterPass se cat tone l =
      (l.filter (survivesFilters se cat tone),
        (l.filter (removedByFilters se cat tone)).length) := by
  induction l with
  | nil => rfl
  | cons r rest ih =>
      cases hA : skippedByExisting se r with
      | true =>
          simp [filterPass, ih, hA, survivesFilters, removedByFilters,
            List.filter_cons]
      | false =>
          cases hB : failsCategory cat r with
          | true =>
              simp [filterPass, ih, hA, hB, survivesFilters,
                removedByFilters, List.filter_cons]
          | false =>
              cases hC : failsTone tone r with
              | true =>
                  simp [filterPass, ih, hA, hB, hC, survivesFilters,
                    removedByFilters, List.filter_cons]
              | false =>
                  simp [filterPass, ih, hA, hB, hC, survivesFilters,
                    removedByFilters, List.filter_cons]

/-- Helper: every catalog row lands in exactly one of the three
buckets skipped / surviving / filtered-out. -/
theorem filter_partition (se : Bool) (cat tone : Option String)
    (l : List EmojiRow) :
    (l.filter (skippedByExisting se)).length +
      (l.filter (survivesFilters se cat tone)).length +
      (l.filter (removedByFilters se cat tone)).length = l.length := by
  induction l with
  | nil => rfl
  | cons r rest ih =>
      cases hA : skippedByExisting se r with
      | true =>
          simp only [List.filter_cons, hA, survivesFilters, removedByFilters,
            Bool.not_true, Bool.false_and, if_true, Bool.false_eq_true,
            if_false, List.length_cons]
          omega
      | false =>
          cases hB : failsCategory cat r with
          | true =>
              simp only [List.filter_cons, hA, hB, survivesFilters,
                removedByFilters, Bool.not_false, Bool.true_and,
                Bool.true_or, Bool.not_true, Bool.false_eq_true, if_false,
                if_true, List.length_cons]
              omega
          | false =>
              cases hC : failsTone tone r with
              | true =>
                  simp only [List.filter_cons, hA, hB, hC, survivesFilters,
                    removedByFilters, Bool.not_false, Bool.true_and,
                    Bool.false_or, Bool.not_true, Bool.false_eq_true,
                    if_false, if_true, List.length_cons]
                  omega
              | false =>
                  simp only [List.filter_cons, hA, hB, hC, survivesFilters,
                    removedByFilters, Bool.not_false, Bool.true_and,
                    Bool.false_or, Bool.not_true, Bool.false_eq_true,
                    if_false, if_true, List.length_cons]
                  omega

/-- Helper: the processing loop counts the rows whose provider call
succeeds, accumulates exactly their updates, and issues one provider
call per surviving row. -/
theorem processPass_eq (embed : String → Option (List ℚ))
    (l : List EmojiRow) :
    processPass embed l =
      ((l.filter (fun r => (embed r.description).isSome)).length,
        l.filterMap (fun r => (embed r.description).map (fun v => (r.id, v))),
        l.map (fun r => Effect.providerEmbed r.description)) := by
  induction l with
  | nil => rfl
  | cons r rest ih =>
      cases hv : embed r.description with
      | some v =>
          simp [processPass, ih, hv, List.filter_cons, List.filterMap_cons]
      | none =>
          simp [processPass, ih, hv, List.filter_cons, List.filterMap_cons]

/-- C4: in every run of vectorize_all_emojis, rows are first excluded
by skip_existing and the category/emotion_tone filters apply only to
the remainder: `filtered_out` counts exactly the rows removed by the
category/tone filters, `skipped` counts exactly the rows excluded by
skip_existing, `total` is the full unfiltered catalog size, and
`processed` counts the surviving rows whose provider call succeeded.
Instantiated at a catalog with 3 embedded and 2 non-embedded rows,
no filters and skip_existing, this gives processed=2, skipped=3. -/
theorem c4_vectorize_all_counts (catalog : List EmojiRow)
    (embed : String → Option (List ℚ)) (se : Bool)
    (cat tone : Option String) :
    (vectorize_all_emojis catalog embed se cat tone false).1 =
      VectorizeResult.done
        ((catalog.filter (survivesFilters se cat tone)).filter
          (fun r => (embed r.description).isSome)).length
        (catalog.filter (skippedByExisting se)).length
        (catalog.filter (removedByFilters se cat tone)).length
        catalog.length := by
  have hpart := filter_partition se cat tone catalog
  have hsk : catalog.length -
      (catalog.filter (survivesFilters se cat tone)).length -
      (catalog.filter (removedByFilters se cat tone)).length =
      (catalog.filter (skippedByExisting se)).length := by omega
  simp only [vectorize_all_emojis, filterPass_eq, processPass_eq,
    Bool.false_eq_true, if_false, hsk]

/-- C6 counterexample: with dry_run=true the code still performs the
`get_all_emojis` store read before the dry-run short-circuit, so the
effect trace is not free of store operations. -/
theorem c6_counterexample :
    (vectorize_all_emojis [exampleRow] (fun _ => none) false none none
        true).2 = [Effect.storeGetAll] ∧
    Effect.storeGetAll ∈
      (vectorize_all_emojis [exampleRow] (fun _ => none) false none none
        true).2 := by
  have h : (vectorize_all_emojis [exampleRow] (fun _ => none) false none none
      true).2 = [Effect.storeGetAll] := rfl
  exact ⟨h, h ▸ List.mem_singleton_self Effect.storeGetAll⟩

/-- C6 amended: for every option combination, dry_run makes no call to
the embedding provider and no store write; the effect trace is exactly
the single unconditional catalog read, and the returned report is the
dry-run report (would_process, skipped, filtered_out). -/
theorem c6_dry_run_reads_only (catalog : List EmojiRow)
    (embed : String → Option (List ℚ)) (se : Bool)
    (cat tone : Option String) :
    vectorize_all_emojis catalog embed se cat tone true =
      (VectorizeResult.dryRun
        (catalog.filter (survivesFilters se cat tone)).length
        (catalog.filter (skippedByExisting se)).length
        (catalog.filter (removedByFilters se cat tone)).length,
       [Effect.storeGetAll]) := by
  have hpart := filter_partition se cat tone catalog
  have hsk : catalog.length -
      (catalog.filter (survivesFilters se cat tone)).length -
      (catalog.filter (removedByFilters se cat tone)).length =
      (catalog.filter (skippedByExisting se)).length := by omega
  simp only [vectorize_all_emojis, filterPass_eq, if_true, hsk]

/-- Splitting the catalog into batch_size chunks, mirroring
`for i in range(0, len(all_emojis), batch_size)` with
`all_emojis[i : i + batch_size]` (emoji_service.py lines 592-593).
Python raises for a zero step; a zero batch_size yields the empty
chunk list here. -/
def chunks (bs : Nat) (xs : List EmojiRow) : List (List EmojiRow) :=
  if h : bs = 0 ∨ xs = [] then []
  else xs.take bs :: chunks bs (xs.drop bs)
termination_by xs.length
decreasing_by
  push_neg at h
  simp only [List.length_drop]
  exact Nat.sub_lt (List.length_pos.mpr h.2) (Nat.pos_of_ne_zero h.1)

/-- Outcome of one run of `vectorize_emojis_batch`: the
successful/failed counters when the run completes (None when a chunk
failure was re-raised and aborted the run), together with the
per-chunk store writes flushed before the run ended. -/
structure BatchRun where
  result : Option (Nat × Nat)
  writes : List (List (Nat × List ℚ))
deriving DecidableEq

/-- The `embedding_updates` dict assembled for one chunk:
`zip(batch, embeddings)` keyed by emoji id (emoji_service.py lines
603-604). Row ids are unique in the catalog, so insertion order of the
dict is the zip order. -/
def chunkUpdates (embs : List (List ℚ)) (batch : List EmojiRow) :
    List (Nat × List ℚ) :=
  (batch.zip embs).map (fun p => (p.1.id, p.2))

/-- The chunk loop of `vectorize_emojis_batch` (emoji_service.py lines
592-616). `embedBatch` models `get_embeddings_batch` on the chunk's
descriptions (None = the call raised). On success the chunk's updates
are flushed (when non-empty) and `successful` grows by the zip length;
on failure `failed` grows by the chunk length and the loop either
continues (continue_on_error) or aborts by re-raising. -/
def runChunks (embedBatch : List String → Option (List (List ℚ)))
    (continue_on_error : Bool) :
    List (List EmojiRow) → Nat → Nat → BatchRun
  | [], successful, failed => ⟨some (successful, failed), []⟩
  | batch :: rest, successful, failed =>
      match embedBatch (batch.map (fun r => r.description)) with
      | some embs =>
          let upds := chunkUpdates embs batch
          let r := runChunks embedBatch continue_on_error rest
            (successful + (batch.zip embs).length) failed
          ⟨r.result, (if upds.isEmpty then [] else [upds]) ++ r.writes⟩
      | none =>
          if continue_on_error then
            runChunks embedBatch continue_on_error rest successful
              (failed + batch.length)
          else ⟨none, []⟩

/-- `EmojiService.vectorize_emojis_batch` (emoji_service.py lines
566-618). -/
def vectorize_emojis_batch (catalog : List EmojiRow)
    (embedBatch : List String → Option (List (List ℚ)))
    (batch_size : Nat) (continue_on_error : Bool) : BatchRun :=
  runChunks embedBatch continue_on_error (chunks batch_size catalog) 0 0

/-- Per-chunk contribution to `successful`. -/
def chunkSuccessCount (embedBatch : List String → Option (List (List ℚ)))
    (batch : List EmojiRow) : Nat :=
  match embedBatch (batch.map (fun r => r.description)) with
  | some embs => (batch.zip embs).length
  | none => 0

/-- Per-chunk contribution to `failed`. -/
def chunkFailCount (embedBatch : List String → Option (List (List ℚ)))
    (batch : List EmojiRow) : Nat :=
  match embedBatch (batch.map (fun r => r.description)) with
  | some _ => 0
  | none => batch.length

/-- Per-chunk store writes. -/
def chunkWrites (embedBatch : List String → Option (List (List ℚ)))
    (batch : List EmojiRow) : List (List (Nat × List ℚ)) :=
  match embedBatch (batch.map (fun r => r.description)) with
  | some embs =>
      if (chunkUpdates embs batch).isEmpty then [] else [chunkUpdates embs batch]
  | none => []

/-- Helper: with continue_on_error the chunk loop completes, summing
per-chunk success and failure counts and flushing each non-failing
chunk's updates in order. -/
theorem runChunks_continue (embedBatch : List String → Option (List (List ℚ)))
    (cs : List (List EmojiRow)) :
    ∀ s f, runChunks embedBatch true cs s f =
      ⟨some (s + (cs.map (chunkSuccessCount embedBatch)).sum,
             f + (cs.map (chunkFailCount embedBatch)).sum),
       (cs.map (chunkWrites embedBatch)).flatten⟩ := by
  induction cs with
  | nil => intro s f; simp [runChunks]
  | cons batch rest ih =>
      intro s f
      cases hv : embedBatch (batch.map (fun r => r.description)) with
      | some embs =>
          simp only [runChunks, hv, ih, List.map_cons, List.sum_cons,
            chunkSuccessCount, chunkFailCount, chunkWrites,
            List.flatten_cons, BatchRun.mk.injEq, Option.some.injEq,
            Prod.mk.injEq]
          exact ⟨⟨by omega, by omega⟩, trivial⟩
      | none =>
          simp only [runChunks, hv, if_true, ih, List.map_cons,
            List.sum_cons, chunkSuccessCount, chunkFailCount, chunkWrites,
            List.flatten_cons, List.nil_append, BatchRun.mk.injEq,
            Option.some.injEq, Prod.mk.injEq]
          exact ⟨⟨by omega, by omega⟩, trivial⟩

/-- Helper: without continue_on_error, the first failing chunk aborts
the run by re-raising; the chunks processed before it have already been
flushed, the rest are never processed. -/
theorem runChunks_abort (embedBatch : List String → Option (List (List ℚ)))
    (good : List (List EmojiRow)) (bad : List EmojiRow)
    (rest : List (List EmojiRow)) :
    (∀ b ∈ good, (embedBatch (b.map (fun r => r.description))).isSome) →
    embedBatch (bad.map (fun r => r.description)) = none →
    ∀ s f, runChunks embedBatch false (good ++ bad :: rest) s f =
      ⟨none, (good.map (chunkWrites embedBatch)).flatten⟩ := by
  induction good with
  | nil =>
      intro _ hbad s f
      simp [runChunks, hbad]
  | cons b goodRest ih =>
      intro hgood hbad s f
      have hb := hgood b (List.mem_cons_self b goodRest)
      rcases Option.isSome_iff_exists.mp hb with ⟨embs, hbe⟩
      simp only [List.cons_append, runChunks, hbe, List.map_cons,
        List.flatten_cons, chunkWrites, hbe, List.append_eq]
      rw [ih (fun x hx => hgood x (List.mem_cons_of_mem b hx)) hbad]

/-- C5: in vectorize_emojis_batch, flushing happens once per chunk of
batch_size rows. With continue_on_error=true a failing chunk adds its
row count to `failed` and processing continues, so every non-failing
chunk's updates are persisted and `successful` sums the non-failing
chunks' row counts; with continue_on_error=false the first chunk
failure aborts the run by re-raising (no counters are returned), with
only the earlier chunks' updates persisted. -/
theorem c5_batch_flush_and_failure (catalog : List EmojiRow)
    (embedBatch : List String → Option (List (List ℚ))) (bs : Nat) :
    (vectorize_emojis_batch catalog embedBatch bs true =
      ⟨some (((chunks bs catalog).map (chunkSuccessCount embedBatch)).sum,
             ((chunks bs catalog).map (chunkFailCount embedBatch)).sum),
       ((chunks bs catalog).map (chunkWrites embedBatch)).flatten⟩) ∧
    (∀ good bad rest,
      chunks bs catalog = good ++ bad :: rest →
      (∀ b ∈ good, (embedBatch (b.map (fun r => r.description))).isSome) →
      embedBatch (bad.map (fun r => r.description)) = none →
      vectorize_emojis_batch catalog embedBatch bs false =
        ⟨none, (good.map (chunkWrites embedBatch)).flatten⟩) := by
  constructor
  · have h := runChunks_continue embedBatch (chunks bs catalog) 0 0
    simpa [vectorize_emojis_batch] using h
  · intro good bad rest hchunks hgood hbad
    unfold vectorize_emojis_batch
    rw [hchunks]
    exact runChunks_abort embedBatch good bad rest hgood hbad 0 0

/-- Six catalog rows used by the C5 witness. -/
def batchRowsW : List EmojiRow :=
  [⟨1, ":a:", "d1", none, none, none, 1, none⟩,
   ⟨2, ":b:", "d2", none, none, none, 1, none⟩,
   ⟨3, ":c:", "d3", none, none, none, 1, none⟩,
   ⟨4, ":d:", "d4", none, none, none, 1, none⟩,
   ⟨5, ":e:", "d5", none, none, none, 1, none⟩,
   ⟨6, ":f:", "d6", none, none, none, 1, none⟩]

/-- A batch provider that fails exactly on the second chunk of
`batchRowsW` at batch_size 2. -/
def embedBatchW : List String → Option (List (List ℚ)) :=
  fun l => if l = ["d3", "d4"] then none
    else some (l.map (fun _ => [(1 : ℚ)]))

/-- Witness for C5: batch_size=2 over 6 rows with the 2nd chunk
failing gives successful=4, failed=2 with the 1st and 3rd chunks
persisted when continue_on_error=true, and an aborted run with only
the 1st chunk persisted when continue_on_error=false. -/
theorem c5_witness :
    vectorize_emojis_batch batchRowsW embedBatchW 2 true =
      ⟨some (4, 2), [[(1, [(1 : ℚ)]), (2, [1])], [(5, [1]), (6, [1])]]⟩ ∧
    vectorize_emojis_batch batchRowsW embedBatchW 2 false =
      ⟨none, [[(1, [(1 : ℚ)]), (2, [1])]]⟩ := by
  have h := c5_batch_flush_and_failure batchRowsW embedBatchW 2
  have hchunks : chunks 2 batchRowsW =
      [[⟨1, ":a:", "d1", none, none, none, 1, none⟩,
        ⟨2, ":b:", "d2", none, none, none, 1, none⟩],
       [⟨3, ":c:", "d3", none, none, none, 1, none⟩,
        ⟨4, ":d:", "d4", none, none, none, 1, none⟩],
       [⟨5, ":e:", "d5", none, none, none, 1, none⟩,
        ⟨6, ":f:", "d6", none, none, none, 1, none⟩]] := by
    simp [chunks, batchRowsW]
  constructor
  · rw [h.1, hchunks]
    simp [chunkSuccessCount, chunkFailCount, chunkWrites, chunkUpdates,
      embedBatchW]
  · rw [h.2
      [[⟨1, ":a:", "d1", none, none, none, 1, none⟩,
        ⟨2, ":b:", "d2", none, none, none, 1, none⟩]]
      [⟨3, ":c:", "d3", none, none, none, 1, none⟩,
        ⟨4, ":d:", "d4", none, none, none, 1, none⟩]
      [[⟨5, ":e:", "d5", none, none, none, 1, none⟩,
        ⟨6, ":f:", "d6", none, none, none, 1, none⟩]]
      (by rw [hchunks]; rfl)
      (by intro b hb; fin_cases hb <;> simp [embedBatchW])
      (by simp [embedBatchW])]
    simp [chunkWrites, chunkUpdates, embedBatchW]

/-- Mutable state of one CircuitBreaker instance
(error_handler.py lines 260-264). Wall-clock timestamps are rational
seconds; `last_failure_time` is None until the first failure. -/
structure BreakerState where
  failure_count : Nat
  last_failure_time : Option ℚ
  is_open : Bool
deriving DecidableEq

/-- The breaker state right after construction or `reset()`
(error_handler.py lines 267-271). -/
def breakerReset : BreakerState := ⟨0, none, false⟩

/-- What the caller of one guarded call eventually observes: the
fast-fail ServiceError with error_code CIRCUIT_BREAKER_OPEN, the
awaited operation's result, or the awaited operation's exception
surfacing at the caller's await. -/
inductive CallOutcome where
  | breakerOpen : CallOutcome
  | ok : CallOutcome
  | failed : CallOutcome
deriving DecidableEq

/-- One call through the circuit breaker wrapper of
`create_circuit_breaker` (error_handler.py lines 275-316) as it
behaves on the functions this repository actually decorates with it —
all of them `async def` (openai_service.py line 123,
database_service.py line 794, emoji_service.py line 755). The wrapper
is a plain synchronous `def wrapper`, so `result = func(*args,
**kwargs)` at line 297 only constructs a coroutine and cannot raise;
the try always succeeds, `failure_count` is set to 0 (line 303), and
the coroutine is returned. The awaited operation's outcome
(`op_succeeds`) reaches the caller at its await, outside the wrapper's
try, so the except branch at lines 305-316 (increment, timestamp,
opening at the threshold) is dead code; `failure_threshold` is
consequently never consulted. The open-circuit gate at lines 277-294
is kept as written. The returned Bool says whether the wrapped
function was invoked. -/
def breakerCallAsync (failure_threshold : Nat) (timeout_seconds : ℚ)
    (st : BreakerState) (now : ℚ) (op_succeeds : Bool) :
    BreakerState × CallOutcome × Bool :=
  if st.is_open then
    match st.last_failure_time with
    | some t =>
        if timeout_seconds < now - t then
          (⟨0, none, false⟩,
           if op_succeeds then CallOutcome.ok else CallOutcome.failed, true)
        else (st, CallOutcome.breakerOpen, false)
    | none => (st, CallOutcome.breakerOpen, false)
  else
    (⟨0, st.last_failure_time, st.is_open⟩,
     if op_succeeds then CallOutcome.ok else CallOutcome.failed, true)

/-- A sequence of guarded calls, each given by its wall-clock time and
the would-be outcome of the awaited wrapped operation. -/
def runBreakerAsync (failure_threshold : Nat) (timeout_seconds : ℚ) :
    BreakerState → List (ℚ × Bool) → BreakerState
  | st, [] => st
  | st, (now, op) :: rest =>
      runBreakerAsync failure_threshold timeout_seconds
        (breakerCallAsync failure_threshold timeout_seconds st now op).1 rest

/-- C7 (code bug): on the async functions the decorator wraps in this
program, the breaker state never leaves the fresh closed state, no
matter how many guarded calls fail; in particular, with the embedding
provider's failure_threshold = 3 and timeout_seconds = 60
(openai_service.py line 123), after three consecutive failed calls the
breaker is still closed with failure_count 0 and the next call still
invokes the underlying operation instead of fast-failing — contrary to
the claim that the breaker opens and fast-fails. -/
theorem c7_breaker_never_opens_on_async :
    (∀ (threshold : Nat) (timeout : ℚ) (calls : List (ℚ × Bool)),
      runBreakerAsync threshold timeout breakerReset calls = breakerReset) ∧
    (runBreakerAsync 3 60 breakerReset
        [((0 : ℚ), false), (1, false), (2, false)]).is_open = false ∧
    breakerCallAsync 3 60
        (runBreakerAsync 3 60 breakerReset
          [((0 : ℚ), false), (1, false), (2, false)]) 3 false =
      (breakerReset, CallOutcome.failed, true) := by
  have hmain : ∀ (threshold : Nat) (timeout : ℚ) (calls : List (ℚ × Bool)),
      runBreakerAsync threshold timeout breakerReset calls = breakerReset := by
    intro threshold timeout calls
    induction calls with
    | nil => rfl
    | cons c rest ih =>
        cases c with
        | mk now op =>
            show runBreakerAsync threshold timeout
              (breakerCallAsync threshold timeout breakerReset now op).1 rest =
              breakerReset
            have hstep : (breakerCallAsync threshold timeout breakerReset
                now op).1 = breakerReset := rfl
            rw [hstep]
            exact ih
  refine ⟨hmain, ?_, ?_⟩
  · rw [hmain 3 60 [((0 : ℚ), false), (1, false), (2, false)]]
    rfl
  · rw [hmain 3 60 [((0 : ℚ), false), (1, false), (2, false)]]
    rfl

/-- Outcome of one attempt of the embeddings API call inside
`_get_embedding_with_circuit_breaker` (openai_service.py lines
126-194): success, RateLimitError, AuthenticationError, or a generic
APIError. -/
inductive ApiOutcome where
  | ok : List ℚ → ApiOutcome
  | rateLimit : ApiOutcome
  | authError : ApiOutcome
  | apiError : ApiOutcome
deriving DecidableEq

/-- Result of the whole retry loop, carrying the backoff delays slept
in order. The four error constructors keep the four distinct
OpenAIServiceError raises apart (rate limit exhausted, API error
exhausted, authentication failed at a given attempt index, and the
unreachable raise after the loop). -/
inductive RetryResult where
  | success : List ℚ → List ℚ → RetryResult
  | rateLimitExhausted : List ℚ → RetryResult
  | apiExhausted : List ℚ → RetryResult
  | authFailed : Nat → List ℚ → RetryResult
  | unexpected : RetryResult
deriving DecidableEq

/-- Prepend one slept delay to a retry outcome. -/
def addDelay (d : ℚ) : RetryResult → RetryResult
  | RetryResult.success v ds => RetryResult.success v (d :: ds)
  | RetryResult.rateLimitExhausted ds => RetryResult.rateLimitExhausted (d :: ds)
  | RetryResult.apiExhausted ds => RetryResult.apiExhausted (d :: ds)
  | RetryResult.authFailed j ds => RetryResult.authFailed j (d :: ds)
  | RetryResult.unexpected => RetryResult.unexpected

/-- The body of `for attempt in range(max_retries + 1)`
(openai_service.py lines 126-194): the fuel argument counts the loop
iterations left (max_retries + 1 at entry), `attempt` the current
index. RateLimitError sleeps base_delay * 2 ^ attempt before the next
attempt unless attempt == max_retries, which raises the rate-limit
exhausted error; AuthenticationError raises immediately without
retrying; APIError sleeps base_delay (no exponent) unless
attempt == max_retries, which raises the API exhausted error. Fuel 0
is the unreachable raise after the loop. -/
def retryGo (call : Nat → ApiOutcome) (max_retries : Nat) (base_delay : ℚ) :
    Nat → Nat → RetryResult
  | 0, _ => RetryResult.unexpected
  | fuel + 1, attempt =>
      match call attempt with
      | ApiOutcome.ok v => RetryResult.success v []
      | ApiOutcome.rateLimit =>
          if attempt = max_retries then RetryResult.rateLimitExhausted []
          else addDelay (base_delay * 2 ^ attempt)
            (retryGo call max_retries base_delay fuel (attempt + 1))
      | ApiOutcome.authError => RetryResult.authFailed attempt []
      | ApiOutcome.apiError =>
          if attempt = max_retries then RetryResult.apiExhausted []
          else addDelay base_delay
            (retryGo call max_retries base_delay fuel (attempt + 1))

/-- The retry loop of `OpenAIService._get_embedding_with_circuit_breaker`
entered at attempt 0 with max_retries + 1 iterations available. -/
def retryEmbedding (call : Nat → ApiOutcome) (max_retries : Nat)
    (base_delay : ℚ) : RetryResult :=
  retryGo call max_retries base_delay (max_retries + 1) 0

/-- C8 counterexample: with max_retries = 3, base_delay = 1 and every
attempt failing with a generic APIError, the three slept delays are
[1, 1, 1], not the [1, 2, 4] that a base_delay * 2 ^ attempt backoff
before each retry would give. -/
theorem c8_counterexample :
    retryEmbedding (fun _ => ApiOutcome.apiError) 3 1 =
      RetryResult.apiExhausted [1, 1, 1] ∧
    [(1 : ℚ), 1, 1] ≠ [1, 2, 4] := by
  constructor
  · rfl
  · intro hc
    have := List.head_eq_of_cons_eq (List.tail_eq_of_cons_eq hc)
    norm_num at this

/-- Helper: when every attempt up to max_retries hits RateLimitError,
the loop sleeps base_delay * 2 ^ attempt before each retry and finally
raises the rate-limit exhausted error. -/
theorem retryGo_rateLimit (call : Nat → ApiOutcome) (maxR : Nat) (base : ℚ) :
    ∀ (fuel attempt : Nat), attempt + fuel = maxR + 1 → attempt ≤ maxR →
      (∀ k, attempt ≤ k → k ≤ maxR → call k = ApiOutcome.rateLimit) →
      retryGo call maxR base fuel attempt =
        RetryResult.rateLimitExhausted
          ((List.range' attempt (maxR - attempt)).map
            (fun k => base * 2 ^ k)) := by
  intro fuel
  induction fuel with
  | zero => intro attempt hfa hle _; omega
  | succ fuel ih =>
      intro attempt hfa hle hcall
      have hc := hcall attempt (le_refl attempt) hle
      by_cases heq : attempt = maxR
      · subst heq
        simp [retryGo, hc, Nat.sub_self]
      · have hlt : attempt < maxR := lt_of_le_of_ne hle heq
        have hn : maxR - attempt = (maxR - (attempt + 1)) + 1 := by omega
        simp only [retryGo, hc, heq, if_false]
        rw [ih (attempt + 1) (by omega) (by omega)
          (fun k hk1 hk2 => hcall k (by omega) hk2)]
        rw [hn, List.range'_succ]
        simp [addDelay]

/-- Helper: when every attempt up to max_retries hits a generic
APIError, the loop sleeps the constant base_delay before each retry
and finally raises the API exhausted error. -/
theorem retryGo_apiError (call : Nat → ApiOutcome) (maxR : Nat) (base : ℚ) :
    ∀ (fuel attempt : Nat), attempt + fuel = maxR + 1 → attempt ≤ maxR →
      (∀ k, attempt ≤ k → k ≤ maxR → call k = ApiOutcome.apiError) →
      retryGo call maxR base fuel attempt =
        RetryResult.apiExhausted (List.replicate (maxR - attempt) base) := by
  intro fuel
  induction fuel with
  | zero => intro attempt hfa hle _; omega
  | succ fuel ih =>
      intro attempt hfa hle hcall
      have hc := hcall attempt (le_refl attempt) hle
      by_cases heq : attempt = maxR
      · subst heq
        simp [retryGo, hc, Nat.sub_self]
      · have hlt : attempt < maxR := lt_of_le_of_ne hle heq
        have hn : maxR - attempt = (maxR - (attempt + 1)) + 1 := by omega
        simp only [retryGo, hc, heq, if_false]
        rw [ih (attempt + 1) (by omega) (by omega)
          (fun k hk1 hk2 => hcall k (by omega) hk2)]
        rw [hn, List.replicate_succ]
        simp [addDelay]

/-- Helper: an AuthenticationError at attempt j, with every earlier
attempt a retryable failure, is raised immediately at attempt j —
never retried — after only the j backoff sleeps of the earlier
retries. -/
theorem retryGo_auth (call : Nat → ApiOutcome) (maxR : Nat) (base : ℚ) :
    ∀ (fuel attempt j : Nat), attempt + fuel = maxR + 1 → attempt ≤ j →
      j ≤ maxR → call j = ApiOutcome.authError →
      (∀ k, attempt ≤ k → k < j →
        call k = ApiOutcome.rateLimit ∨ call k = ApiOutcome.apiError) →
      retryGo call maxR base fuel attempt =
        RetryResult.authFailed j ((List.range' attempt (j - attempt)).map
          (fun k => if call k = ApiOutcome.rateLimit
            then base * 2 ^ k else base)) := by
  intro fuel
  induction fuel with
  | zero => intro attempt j hfa hle hj _ _; omega
  | succ fuel ih =>
      intro attempt j hfa hle hj hauth hcall
      by_cases heq : attempt = j
      · subst heq
        simp [retryGo, hauth, Nat.sub_self]
      · have hlt : attempt < j := lt_of_le_of_ne hle heq
        have hne : attempt ≠ maxR := by omega
        have hn : j - attempt = (j - (attempt + 1)) + 1 := by omega
        have hrec := ih (attempt + 1) j (by omega) (by omega) hj hauth
          (fun k hk1 hk2 => hcall k (by omega) hk2)
        cases hcall attempt (le_refl attempt) hlt with
        | inl hc =>
            simp only [retryGo, hc, hne, if_false]
            rw [hrec, hn, List.range'_succ]
            simp [addDelay, hc]
        | inr hc =>
            simp only [retryGo, hc, hne, if_false]
            rw [hrec, hn, List.range'_succ]
            simp [addDelay, hc]

/-- C8 amended: in the retry loop, a rate-limit failure is retried
after a backoff of base_delay * 2 ^ attempt and a generic API failure
after a constant base_delay, each up to max_retries additional
attempts after the initial one, after which the matching retries
exhausted error is raised; an authentication failure is never retried
and propagates at its first occurrence. -/
theorem c8_retry_policy (call : Nat → ApiOutcome) (maxR : Nat) (base : ℚ) :
    ((∀ k, k ≤ maxR → call k = ApiOutcome.rateLimit) →
      retryEmbedding call maxR base =
        RetryResult.rateLimitExhausted
          ((List.range maxR).map (fun k => base * 2 ^ k))) ∧
    ((∀ k, k ≤ maxR → call k = ApiOutcome.apiError) →
      retryEmbedding call maxR base =
        RetryResult.apiExhausted (List.replicate maxR base)) ∧
    (∀ j, j ≤ maxR → call j = ApiOutcome.authError →
      (∀ k, k < j → call k = ApiOutcome.rateLimit ∨
        call k = ApiOutcome.apiError) →
      retryEmbedding call maxR base =
        RetryResult.authFailed j ((List.range j).map
          (fun k => if call k = ApiOutcome.rateLimit
            then base * 2 ^ k else base))) := by
  refine ⟨?_, ?_, ?_⟩
  · intro hcall
    rw [List.range_eq_range']
    have := retryGo_rateLimit call maxR base (maxR + 1) 0 (by omega)
      (by omega) (fun k _ hk => hcall k hk)
    simpa [retryEmbedding] using this
  · intro hcall
    have := retryGo_apiError call maxR base (maxR + 1) 0 (by omega)
      (by omega) (fun k _ hk => hcall k hk)
    simpa [retryEmbedding] using this
  · intro j hj hauth hcall
    rw [List.range_eq_range']
    have := retryGo_auth call maxR base (maxR + 1) 0 j (by omega)
      (by omega) hj hauth (fun k _ hk => hcall k hk)
    simpa [retryEmbedding] using this

/-- Witness for C8: with max_retries = 2 and base_delay = 1,
all-rate-limit runs sleep [1, 2], all-API-error runs sleep [1, 1], and
an authentication failure at attempt 1 after one API-error retry
propagates immediately with the single sleep [1]. -/
theorem c8_witness :
    retryEmbedding (fun _ => ApiOutcome.rateLimit) 2 1 =
      RetryResult.rateLimitExhausted [1, 2] ∧
    retryEmbedding (fun _ => ApiOutcome.apiError) 2 1 =
      RetryResult.apiExhausted [1, 1] ∧
    retryEmbedding (fun k => if k = 1 then ApiOutcome.authError
        else ApiOutcome.apiError) 2 1 =
      RetryResult.authFailed 1 [1] := by
  refine ⟨?_, ?_, ?_⟩
  · rw [(c8_retry_policy (fun _ => ApiOutcome.rateLimit) 2 1).1
      (fun _ _ => rfl)]
    norm_num [List.range_succ]
  · rw [(c8_retry_policy (fun _ => ApiOutcome.apiError) 2 1).2.1
      (fun _ _ => rfl)]
    rfl
  · rw [(c8_retry_policy (fun k => if k = 1 then ApiOutcome.authError
        else ApiOutcome.apiError) 2 1).2.2 1 (by omega) (by norm_num)
      (by intro k hk
          interval_cases k
          simp)]
    norm_num [List.range_succ]

/-- The cache-relevant state of an EmojiService instance
(emoji_service.py lines 52-58): the cache_enabled flag and the
code-keyed `emoji_cache` dict, modelled as a partial map. -/
structure EmojiServiceState where
  cache_enabled : Bool
  emoji_cache : String → Option EmojiRow

/-- `EmojiService.update_emoji` (emoji_service.py lines 233-241): after
the store update succeeds, the cache entry for the record's code is
deleted when the cache is enabled and the entry exists. Only the cache
state is modelled; the store update itself is the collaborator's. -/
def update_emoji (st : EmojiServiceState) (e : EmojiRow) : EmojiServiceState :=
  if st.cache_enabled && (st.emoji_cache e.code).isSome then
    ⟨st.cache_enabled, fun c => if c = e.code then none else st.emoji_cache c⟩
  else st

/-- `EmojiService.delete_emoji` (emoji_service.py lines 243-245): the
method forwards to the store and returns; it contains no cache
access whatsoever, so the service state is unchanged. -/
def delete_emoji (st : EmojiServiceState) (_emoji_id : Nat) :
    EmojiServiceState := st

/-- `EmojiService.get_emoji_by_code` (emoji_service.py lines 142-168):
on an enabled-cache hit return the cached record without touching the
store; otherwise query the store (`db`), cache a found record when the
cache is enabled, and return it. The Bool reports whether the store
was queried. -/
def get_emoji_by_code (st : EmojiServiceState)
    (db : String → Option EmojiRow) (code : String) :
    Option EmojiRow × EmojiServiceState × Bool :=
  if st.cache_enabled && (st.emoji_cache code).isSome then
    (st.emoji_cache code, st, false)
  else
    match db code with
    | some e =>
        (some e,
         ⟨st.cache_enabled,
          if st.cache_enabled then
            (fun c => if c = code then some e else st.emoji_cache c)
          else st.emoji_cache⟩,
         true)
    | none => (none, st, true)

/-- C9 counterexample: delete_emoji performs no cache invalidation, so
after a successful delete the stale cache entry for the deleted
emoji's code survives and the next get_emoji_by_code returns the
pre-delete cached record without re-querying the store (which by then
no longer has the row). -/
theorem c9_counterexample :
    (delete_emoji
        ⟨true, fun c => if c = ":wave:" then some exampleRow else none⟩
        1).emoji_cache ":wave:" = some exampleRow ∧
    get_emoji_by_code
        (delete_emoji
          ⟨true, fun c => if c = ":wave:" then some exampleRow else none⟩ 1)
        (fun _ => none) ":wave:" =
      (some exampleRow,
       delete_emoji
         ⟨true, fun c => if c = ":wave:" then some exampleRow else none⟩ 1,
       false) := by
  constructor
  · rfl
  · rfl

/-- C9 amended: after every successful update the cache holds no entry
for the updated emoji's code and the next get_emoji_by_code for that
code queries the store and returns the store's answer; delete_emoji,
however, leaves the cache untouched. -/
theorem c9_update_invalidates_delete_does_not
    (st : EmojiServiceState) (e : EmojiRow)
    (db : String → Option EmojiRow) (i : Nat) :
    (st.cache_enabled = true →
      (update_emoji st e).emoji_cache e.code = none) ∧
    (get_emoji_by_code (update_emoji st e) db e.code).1 = db e.code ∧
    (get_emoji_by_code (update_emoji st e) db e.code).2.2 = true ∧
    delete_emoji st i = st := by
  refine ⟨?_, ?_, ?_, rfl⟩
  · intro hen
    unfold update_emoji
    by_cases hhit : (st.emoji_cache e.code).isSome
    · simp [hen, hhit]
    · simp only [hen, Bool.true_and, hhit, Bool.false_eq_true, if_false]
      exact Option.not_isSome_iff_eq_none.mp hhit
  · have hmiss : ((update_emoji st e).emoji_cache e.code).isSome = false ∨
        (update_emoji st e).cache_enabled = false := by
      unfold update_emoji
      by_cases hen : st.cache_enabled
      · by_cases hhit : (st.emoji_cache e.code).isSome
        · left; simp [hen, hhit]
        · left; simp [hen, hhit]
      · right; simp [hen]
    unfold get_emoji_by_code
    rcases hmiss with hm | hm
    · rw [if_neg (by simp [hm])]
      cases hdb : db e.code <;> simp
    · rw [if_neg (by simp [hm])]
      cases hdb : db e.code <;> simp
  · have hmiss : ((update_emoji st e).emoji_cache e.code).isSome = false ∨
        (update_emoji st e).cache_enabled = false := by
      unfold update_emoji
      by_cases hen : st.cache_enabled
      · by_cases hhit : (st.emoji_cache e.code).isSome
        · left; simp [hen, hhit]
        · left; simp [hen, hhit]
      · right; simp [hen]
    unfold get_emoji_by_code
    rcases hmiss with hm | hm
    · rw [if_neg (by simp [hm])]
      cases hdb : db e.code <;> simp
    · rw [if_neg (by simp [hm])]
      cases hdb : db e.code <;> simp

/-- Witness for C9: a concrete enabled cache holding the example row
under its code; updating that row empties the entry, the following
lookup hits the store, and a delete leaves the state untouched. -/
theorem c9_witness :
    ((update_emoji ⟨true, fun c => if c = ":wave:" then some exampleRow
        else none⟩ exampleRow).emoji_cache ":wave:" = none) ∧
    (get_emoji_by_code (update_emoji ⟨true, fun c => if c = ":wave:"
        then some exampleRow else none⟩ exampleRow)
      (fun _ => none) ":wave:").1 = none ∧
    (get_emoji_by_code (update_emoji ⟨true, fun c => if c = ":wave:"
        then some exampleRow else none⟩ exampleRow)
      (fun _ => none) ":wave:").2.2 = true ∧
    delete_emoji ⟨true, fun c => if c = ":wave:" then some exampleRow
        else none⟩ 1 =
      ⟨true, fun c => if c = ":wave:" then some exampleRow else none⟩ := by
  have h := c9_update_invalidates_delete_does_not
    ⟨true, fun c => if c = ":wave:" then some exampleRow else none⟩
    exampleRow (fun _ => none) 1
  have hcode : exampleRow.code = ":wave:" := rfl
  refine ⟨?_, ?_, h.2.2⟩
  · have := h.1 rfl
    rw [hcode] at this
    exact this
  · have := h.2.1
    rw [hcode] at this
    exact this

/-- The placeholder substituted for a failed text in a batch:
`np.zeros(self.dimensions)` with dimensions = 1536
(openai_service.py line 255). -/
def zeroEmbedding : List ℚ := List.replicate 1536 0

/-- Python `not text or not text.strip()`: the text is empty or
whitespace-only, i.e. every character is whitespace. -/
def isBlank (s : String) : Bool := s.data.all Char.isWhitespace

/-- Result of `get_embeddings_batch`: the per-text embeddings, the
ValueError for an empty text at an index, or the raised
OpenAIServiceError when more than 50 percent of the texts failed
(carrying the successful/failed counters at raise time). -/
inductive BatchEmbResult where
  | ok : List (List ℚ) → BatchEmbResult
  | emptyTextError : Nat → BatchEmbResult
  | batchFailed : Nat → Nat → BatchEmbResult
deriving DecidableEq

/-- The main loop of `get_embeddings_batch` (openai_service.py lines
231-255) over the remaining text indices. `emb i` models the
`get_embedding` call on the i-th text (None = it raised). On a
failure, `failed` is incremented first; the raise condition
`failed > len(texts) * 0.5` is the exact float comparison
2 * failed > n; otherwise a 1536-dimensional zero vector is appended
as a placeholder. -/
def batchLoop (emb : Nat → Option (List ℚ)) (n : Nat) :
    List Nat → List (List ℚ) → Nat → Nat → BatchEmbResult
  | [], acc, _successful, _failed => BatchEmbResult.ok acc.reverse
  | i :: rest, acc, successful, failed =>
      match emb i with
      | some v => batchLoop emb n rest (v :: acc) (successful + 1) failed
      | none =>
          if 2 * (failed + 1) > n then
            BatchEmbResult.batchFailed successful (failed + 1)
          else
            batchLoop emb n rest (zeroEmbedding :: acc) successful (failed + 1)

/-- `OpenAIService.get_embeddings_batch` (openai_service.py lines
203-266): empty input short-circuits to an empty list; then every text
is validated (the first blank text raises the ValueError with its
index); then the main loop runs over all indices. -/
def get_embeddings_batch (texts : List String)
    (emb : Nat → Option (List ℚ)) : BatchEmbResult :=
  if texts.isEmpty then BatchEmbResult.ok []
  else
    match texts.findIdx? (fun t => isBlank t) with
    | some i => BatchEmbResult.emptyTextError i
    | none => batchLoop emb texts.length (List.range texts.length) [] 0 0

/-- Helper: while the cumulative failure count stays at or below half
of n, the loop completes with one entry per index: the embedding on
success, the zero placeholder on failure. -/
theorem batchLoop_ok (emb : Nat → Option (List ℚ)) (n : Nat) :
    ∀ (l : List Nat) (acc : List (List ℚ)) (s f : Nat),
      2 * (f + (l.filter (fun i => (emb i).isNone)).length) ≤ n →
      batchLoop emb n l acc s f =
        BatchEmbResult.ok (acc.reverse ++
          l.map (fun i => (emb i).getD zeroEmbedding)) := by
  intro l
  induction l with
  | nil => intro acc s f _; simp [batchLoop]
  | cons i rest ih =>
      intro acc s f hle
      cases hv : emb i with
      | some v =>
          simp only [batchLoop, hv]
          rw [ih (v :: acc) (s + 1) f
            (by simp only [List.filter_cons, hv] at hle ⊢; simpa using hle)]
          simp [hv]
      | none =>
          have hcount : (List.filter (fun i => (emb i).isNone) (i :: rest)).length
              = ((rest.filter (fun i => (emb i).isNone)).length) + 1 := by
            simp [List.filter_cons, hv]
          rw [hcount] at hle
          simp only [batchLoop, hv]
          rw [if_neg (by omega)]
          rw [ih (zeroEmbedding :: acc) s (f + 1) (by omega)]
          simp [hv]

/-- Helper: as soon as the cumulative failures would exceed half of n,
the loop raises the batch-failure error. -/
theorem batchLoop_fail (emb : Nat → Option (List ℚ)) (n : Nat) :
    ∀ (l : List Nat) (acc : List (List ℚ)) (s f : Nat),
      2 * f ≤ n →
      2 * (f + (l.filter (fun i => (emb i).isNone)).length) > n →
      ∃ s2 f2, batchLoop emb n l acc s f =
        BatchEmbResult.batchFailed s2 f2 ∧ 2 * f2 > n := by
  intro l
  induction l with
  | nil => intro acc s f hle hgt; simp at hgt; omega
  | cons i rest ih =>
      intro acc s f hle hgt
      cases hv : emb i with
      | some v =>
          simp only [batchLoop, hv]
          exact ih (v :: acc) (s + 1) f hle
            (by simp only [List.filter_cons, hv] at hgt ⊢; simpa using hgt)
      | none =>
          have hcount : (List.filter (fun i => (emb i).isNone) (i :: rest)).length
              = ((rest.filter (fun i => (emb i).isNone)).length) + 1 := by
            simp [List.filter_cons, hv]
          rw [hcount] at hgt
          simp only [batchLoop, hv]
          by_cases hraise : 2 * (f + 1) > n
          · rw [if_pos hraise]
            exact ⟨s, f + 1, rfl, hraise⟩
          · rw [if_neg hraise]
            exact ih (zeroEmbedding :: acc) s (f + 1) (by omega) (by omega)

/-- C10: for a non-empty list of non-blank texts, individual embedding
failures are not surfaced while the cumulative failure count stays at
or below 50 percent of the texts: the returned list has exactly one
entry per input text with the 1536-dimensional zero vector substituted
at each failed position; only when failures exceed 50 percent is the
batch-failure error raised. -/
theorem c10_batch_zero_fill (texts : List String)
    (emb : Nat → Option (List ℚ)) :
    texts ≠ [] →
    (∀ t ∈ texts, isBlank t = false) →
    ((2 * ((List.range texts.length).filter
        (fun i => (emb i).isNone)).length ≤ texts.length →
      get_embeddings_batch texts emb =
        BatchEmbResult.ok ((List.range texts.length).map
          (fun i => (emb i).getD zeroEmbedding)) ∧
      ((List.range texts.length).map
        (fun i => (emb i).getD zeroEmbedding)).length = texts.length) ∧
    (2 * ((List.range texts.length).filter
        (fun i => (emb i).isNone)).length > texts.length →
      ∃ s f, get_embeddings_batch texts emb =
        BatchEmbResult.batchFailed s f ∧ 2 * f > texts.length)) := by
  intro hne hblank
  have hempty : texts.isEmpty = false := by
    cases texts with
    | nil => exact absurd rfl hne
    | cons a l => rfl
  have hfind : texts.findIdx? (fun t => isBlank t) = none :=
    List.findIdx?_eq_none_iff.mpr hblank
  constructor
  · intro hle
    constructor
    · unfold get_embeddings_batch
      rw [hempty, hfind]
      simp only [Bool.false_eq_true, if_false]
      rw [batchLoop_ok emb texts.length (List.range texts.length) [] 0 0
        (by omega)]
      simp
    · simp
  · intro hgt
    unfold get_embeddings_batch
    rw [hempty, hfind]
    simp only [Bool.false_eq_true, if_false]
    exact batchLoop_fail emb texts.length (List.range texts.length) [] 0 0
      (by omega) (by omega)

/-- Witness for C10: four texts with the second one failing give one
embedding per text with the zero placeholder in position 1; two texts
that both fail exceed 50 percent and raise the batch failure. -/
theorem c10_witness :
    get_embeddings_batch ["a", "b", "c", "d"]
        (fun i => if i = 1 then none else some [1]) =
      BatchEmbResult.ok [[1], zeroEmbedding, [1], [1]] ∧
    (∃ s f, get_embeddings_batch ["a", "b"] (fun _ => none) =
      BatchEmbResult.batchFailed s f ∧ 2 * f > 2) := by
  constructor
  · have h := ((c10_batch_zero_fill ["a", "b", "c", "d"]
        (fun i => if i = 1 then none else some [1])
        (by simp) (by decide)).1 (by decide)).1
    rw [h]
    norm_num [List.range_succ]
  · have h := (c10_batch_zero_fill ["a", "b"] (fun _ => none)
        (by simp) (by decide)).2 (by decide)
    simpa using h
